import Mathlib

/-
Verification of the script builder in src/builder.py.

The builder translates a catalog of configuration options and applications
(distro_data) plus a user selection (options) into shell-script text.
Python dictionaries are modelled as association lists over String keys;
Python dict iteration follows the list order (insertion order).  Commands
in the catalog may be a single string or a list of strings (the code
branches on isinstance(..., list)), modelled by the Cmds type.  Fallible
dictionary indexing (d[k], raising KeyError) is modelled with Except
String, the error payload being the missing key.
-/

/-- Python d.get(k): first binding of the key, if any. -/
def pyGet {α : Type} (m : List (String × α)) (k : String) : Option α :=
  (m.find? (fun p => p.1 == k)).map (fun p => p.2)

/-- Python d.get(k, default). -/
def pyGetD {α : Type} (m : List (String × α)) (k : String) (d : α) : α :=
  (pyGet m k).getD d

/-- Python d[k]: raises KeyError (modelled as Except.error with the key) when absent. -/
def pyIndex {α : Type} (m : List (String × α)) (k : String) : Except String α :=
  match pyGet m k with
  | some v => Except.ok v
  | none => Except.error k

/-- Python d[k] = v on a dict: update the existing binding in place (keeping its
position) when the key is present, otherwise append the new binding at the end. -/
def dictSet (m : List (String × Bool)) (k : String) (v : Bool) : List (String × Bool) :=
  match m with
  | [] => [(k, v)]
  | p :: rest => if p.1 == k then (k, v) :: rest else p :: dictSet rest k v

/-- Python sub in s, on the character list of a string: sub occurs at the start
or somewhere in the tail. -/
def occursIn (needle : List Char) : List Char → Bool
  | [] => needle.isEmpty
  | c :: rest => needle.isPrefixOf (c :: rest) || occursIn needle rest

/-- Python sub in s for strings. -/
def strContains (s sub : String) : Bool := occursIn sub.data s.data

/-- Python s.startswith(pre). -/
def strStartsWith (s pre : String) : Bool := pre.data.isPrefixOf s.data

/-- Command field of a catalog entry: a single string or a list of strings
(builder.py branches with isinstance(commands, list)). -/
inductive Cmds where
  | str : String → Cmds
  | list : List String → Cmds
deriving DecidableEq

/-- One system_config catalog entry: \x7bname, description, command(s)\x7d. -/
structure SysOption where
  name : String
  description : String
  command : Cmds
deriving DecidableEq

/-- One essential_apps catalog entry: \x7bname, command\x7d (builder.py reads only the name). -/
structure EssApp where
  name : String
  command : String
deriving DecidableEq

/-- One app entry of an additional category: name, description, default command,
and optionally installation_types mapping a type tag to that variant's command(s)
(builder.py reads installation_types[t]["command"], modelled as the Cmds value). -/
structure AppData where
  name : String
  description : String
  command : Cmds
  installation_types : Option (List (String × Cmds))
deriving DecidableEq

/-- One subcategory of an additional app category: \x7bname, apps\x7d. -/
structure SubCat where
  name : String
  apps : List (String × AppData)
deriving DecidableEq

/-- The catalog (distro_data).  The system_config and essential_apps categories
are Option so that their absence (in particular the empty catalog, the
documented degradation of a load failure) raises a KeyError on direct indexing;
the additional app categories are an association list looked up by name. -/
structure Catalog where
  system_config : Option (List (String × SysOption))
  essential_apps : Option (List EssApp)
  addl : List (String × List (String × SubCat))
deriving DecidableEq

/-- Python: not distro_data — the catalog dict has no keys at all. -/
def Catalog.isEmpty (c : Catalog) : Bool :=
  c.system_config.isNone && c.essential_apps.isNone && c.addl.isEmpty

/-- A selection entry for one app: selected flag (read with .get("selected", False))
and the installation_type field; the outer Option is the presence of the key
(absence raises KeyError on direct indexing), the inner Option is a Python
None value versus a string. -/
structure AppSel where
  selected : Option Bool
  installation_type : Option (Option String)
deriving DecidableEq

/-- The user selection (options): system_config maps option key to boolean,
essential_apps maps app name to boolean, addl maps category name to
subcategory name to app id to its AppSel entry. -/
structure Selection where
  system_config : List (String × Bool)
  essential_apps : List (String × Bool)
  addl : List (String × List (String × List (String × AppSel)))
deriving DecidableEq

/-- builder.py line 8: the additional app categories, in their fixed order. -/
def additional_categories : List String :=
  ["internet_apps", "productivity_apps", "multimedia_apps", "gaming_apps",
   "management_apps", "customization"]

/-- builder.py lines 18-20: PLACEHOLDERS["hostname"]. -/
def hostnamePlaceholder : String := "\x7bhostname\x7d"

/-- builder.py lines 95-105: a command may have quiet redirection appended unless
it starts with one of the no-redirect patterns or contains "EOF". -/
def should_quiet_redirect (cmd : String) : Bool :=
  let no_redirect_patterns :=
    ["log_message", "echo", "printf", "read", "prompt_", "EOF"]
  !(no_redirect_patterns.any
      (fun pattern => strStartsWith cmd pattern || strContains cmd "EOF"))

/-- builder.py lines 112-116: any of the three codec trigger options is truthy
in the system_config selection sub-map. -/
def codecTriggered (options : Selection) : Bool :=
  pyGetD options.system_config "install_multimedia_codecs" false
    || pyGetD options.system_config "install_intel_codecs" false
    || pyGetD options.system_config "install_amd_codecs" false

/-- builder.py lines 108-120: if any codec trigger option is truthy in the
system_config selection, force enable_rpmfusion to True (an in-place dict
assignment); otherwise the selection is returned unchanged. -/
def check_dependencies (options : Selection) : Selection :=
  if codecTriggered options then
    { options with
        system_config := dictSet options.system_config "enable_rpmfusion" true }
  else
    options

/-- builder.py lines 139-140 and 146-147: commands of the set_hostname option
containing "hostnamectl set-hostname" get the hostname placeholder appended. -/
def hostnameSubst (option : String) (cmd : String) : String :=
  if option == "set_hostname" && strContains cmd "hostnamectl set-hostname" then
    cmd ++ " " ++ hostnamePlaceholder
  else cmd

/-- builder.py lines 139-143 (and 146-150): one system_config command line —
hostname substitution, then quiet redirection when in Quiet mode and the
(possibly substituted) command admits it. -/
def sysCmdLine (option : String) (output_mode : String) (quiet_redirect : String)
    (cmd0 : String) : String :=
  let cmd := hostnameSubst option cmd0
  if output_mode == "Quiet" && should_quiet_redirect cmd then cmd ++ quiet_redirect
  else cmd

/-- builder.py lines 133-151: the lines contributed by one entry of the selection
loop — nothing unless the option is enabled and present in the catalog, else the
description comment, each command line, and a trailing empty line. -/
def sysOptionBlock (system_config : List (String × SysOption)) (output_mode : String)
    (quiet_redirect : String) (option : String) (enabled : Bool) : List String :=
  if enabled then
    match pyGet system_config option with
    | some entry =>
        ("# " ++ entry.description) ::
          ((match entry.command with
            | Cmds.list cs => cs.map (sysCmdLine option output_mode quiet_redirect)
            | Cmds.str c => [sysCmdLine option output_mode quiet_redirect c]) ++ [""])
    | none => []
  else []

/-- builder.py lines 123-153: build_system_config — resolve dependencies, then
iterate the selection's system_config entries (in the selection's own order),
emitting each enabled option's block; raises KeyError("system_config") when the
catalog lacks that category. -/
def build_system_config (c : Catalog) (options0 : Selection) (output_mode : String) :
    Except String String :=
  let options := check_dependencies options0
  let quiet_redirect := if output_mode == "Quiet" then " > /dev/null 2>&1" else ""
  match c.system_config with
  | none => Except.error "system_config"
  | some system_config =>
      Except.ok (String.intercalate "\n"
        (options.system_config.flatMap
          (fun p => sysOptionBlock system_config output_mode quiet_redirect p.1 p.2)))

/-- What generate_options records for one additional category: the results of
category_data.get("name", "") and of listing the keys of
category_data.get("apps", \x7b\x7d); the default "" for a missing name is
modelled as none. -/
structure EnumAddCat where
  name : Option SubCat
  apps : List String
deriving DecidableEq

/-- The key list of a subcategory entry viewed as the Python dict
\x7b"name": ..., "apps": ...\x7d. -/
def SubCat.dictKeys (_sc : SubCat) : List String := ["name", "apps"]

/-- The structure generate_options returns: system_config option keys,
essential app names, and one entry per additional category. -/
structure EnumOptions where
  system_config : List String
  essential_apps : List String
  addl : List (String × EnumAddCat)
deriving DecidableEq

/-- builder.py lines 53-82: generate_options — empty dict for an empty catalog;
otherwise direct indexing of distro_data["system_config"] (KeyError when absent)
and of distro_data["essential_apps"]["apps"] (KeyError when absent), and for each
additional category a .get with empty defaults. -/
def generate_options (c : Catalog) : Except String EnumOptions :=
  if c.isEmpty then
    Except.ok { system_config := [], essential_apps := [], addl := [] }
  else
    match c.system_config with
    | none => Except.error "system_config"
    | some sc =>
        match c.essential_apps with
        | none => Except.error "essential_apps"
        | some ess =>
            Except.ok
              { system_config :=
                  (sc.map (fun p => p.1)).filter (fun key => key != "description"),
                essential_apps := ess.map (fun app => app.name),
                addl := additional_categories.map (fun category =>
                  let category_data := pyGetD c.addl category []
                  (category,
                   { name := pyGet category_data "name",
                     apps := match pyGet category_data "apps" with
                             | some sc2 => sc2.dictKeys
                             | none => [] })) }

/-- builder.py line 184 (and 186): one app-install command line — the quiet
redirect string is appended when the policy allows it (the string is empty
outside Quiet mode). -/
def cmdLineApp (quiet_redirect : String) (cmd : String) : String :=
  cmd ++ (if should_quiet_redirect cmd then quiet_redirect else "")

/-- builder.py lines 182-186: the command lines of one app. -/
def appCmdLines (quiet_redirect : String) : Cmds → List String
  | Cmds.list cs => cs.map (cmdLineApp quiet_redirect)
  | Cmds.str cmd => [cmdLineApp quiet_redirect cmd]

/-- builder.py lines 171-179: choose an app's commands.  When the app declares
installation_types, the selection entry is indexed as
category_data[app_id]["installation_type"] (raising KeyError when the field is
absent); a truthy value naming an existing installation type picks that
variant's command, anything else falls back to the app's default command. -/
def pickCommands (app_data : AppData) (category_data : List (String × AppSel))
    (app_id : String) : Except String Cmds :=
  match app_data.installation_types with
  | some types =>
      match pyGet category_data app_id with
      | none => Except.error app_id
      | some selEntry =>
      match selEntry.installation_type with
      | none => Except.error "installation_type"
      | some install_type =>
          match install_type with
          | some s =>
              if s != "" then
                match pyGet types s with
                | some variant => Except.ok variant
                | none => Except.ok app_data.command
              else Except.ok app_data.command
          | none => Except.ok app_data.command
  | none => Except.ok app_data.command

/-- builder.py lines 167-188: the lines of the selected apps of one subcategory —
per app, the installing message, its command lines, and the success message;
the app is looked up by direct indexing in the subcategory's apps dict. -/
def appBlock (subcat : SubCat) (category_data : List (String × AppSel))
    (quiet_redirect : String) : List String → Except String (List String)
  | [] => Except.ok []
  | app_id :: rest => do
      let app_data ← pyIndex subcat.apps app_id
      let cmds ← pickCommands app_data category_data app_id
      let restLines ← appBlock subcat category_data quiet_redirect rest
      Except.ok
        ((("log_message \"Installing " ++ app_data.name ++ "...\"") ::
            (appCmdLines quiet_redirect cmds ++
              ["log_message \"" ++ app_data.name ++ " installed successfully.\""]))
          ++ restLines)

/-- builder.py lines 162-191: iterate the selection's subcategories of one
category; when a subcategory has selected apps, the catalog is indexed as
distro_data[category][category_name] (both raising KeyError when absent),
a comment naming the subcategory is emitted, then the per-app lines, then an
empty line. -/
def subcatBlocks (c : Catalog) (category : String) (quiet_redirect : String) :
    List (String × List (String × AppSel)) → Except String (List String)
  | [] => Except.ok []
  | (category_name, category_data) :: rest => do
      let category_apps :=
        (category_data.filter (fun p => p.2.selected.getD false)).map (fun p => p.1)
      let here ←
        if category_apps.isEmpty then Except.ok []
        else do
          let catMap ← pyIndex c.addl category
          let subcat ← pyIndex catMap category_name
          let lines ← appBlock subcat category_data quiet_redirect category_apps
          Except.ok ((("# Install " ++ subcat.name ++ " applications") :: lines) ++ [""])
      let restLines ← subcatBlocks c category quiet_redirect rest
      Except.ok (here ++ restLines)

/-- builder.py lines 203-205: the additional categories, processed in their
fixed declared order; a category absent from the selection contributes nothing
(options.get(category, \x7b\x7d)). -/
def addlBlocks (c : Catalog) (options : Selection) (quiet_redirect : String) :
    List String → Except String (List String)
  | [] => Except.ok []
  | category :: rest => do
      let here ← subcatBlocks c category quiet_redirect (pyGetD options.addl category [])
      let restLines ← addlBlocks c options quiet_redirect rest
      Except.ok (here ++ restLines)

/-- builder.py lines 155-207: build_app_install — the essential-apps block
(catalog list filtered by the selection flags, one combined dnf command with
the quiet redirect appended unconditionally) followed by the additional
category blocks; raises KeyError("essential_apps") when the catalog lacks
that category. -/
def build_app_install (c : Catalog) (options : Selection) (output_mode : String) :
    Except String String := do
  let quiet_redirect := if output_mode == "Quiet" then " > /dev/null 2>&1" else ""
  match c.essential_apps with
  | none => Except.error "essential_apps"
  | some essAppsList =>
      let essential_apps :=
        essAppsList.filter (fun app => pyGetD options.essential_apps app.name false)
      let essLines :=
        if essential_apps.isEmpty then ([] : List String)
        else
          ["# Install essential applications",
           "log_message \"Installing essential applications...\"",
           "dnf install -y "
             ++ String.intercalate " " (essential_apps.map (fun app => app.name))
             ++ quiet_redirect,
           "log_message \"Essential applications installed successfully.\"",
           ""]
      let addl ← addlBlocks c options quiet_redirect additional_categories
      Except.ok (String.intercalate "\n" (essLines ++ addl))

/-- The spec's list of user-messaging prefixes for the Redirection Policy:
logging, echo, printf, read, and prompt-prefixed calls. -/
def specNoRedirectList : List String :=
  ["log_message", "echo", "printf", "read", "prompt_"]

/-- The spec's wording of the unsafe-to-redirect predicate: the command begins
with one of the user-messaging prefixes, or contains "EOF" anywhere. -/
def specNoRedirect (cmd : String) : Bool :=
  (specNoRedirectList.any (fun pattern => strStartsWith cmd pattern))
    || strContains cmd "EOF"

/-- The spec's wording of one enabled, catalog-present option's emitted block:
a comment line with the option's description, then each of its commands in
declared order, then a blank separator line. -/
def specSysConfigBlock (system_config : List (String × SysOption)) (output_mode : String)
    (quiet_redirect : String) (option : String) : List String :=
  match pyGet system_config option with
  | some entry =>
      ("# " ++ entry.description) ::
        ((match entry.command with
          | Cmds.list cs => cs.map (sysCmdLine option output_mode quiet_redirect)
          | Cmds.str c => [sysCmdLine option output_mode quiet_redirect c]) ++ [""])
  | none => []

/-- The spec's wording of the whole System-Config Emitter body, over a given
iteration order of the resolved selection: keep exactly the keys that are
enabled and present in the catalog, and concatenate their blocks. -/
def specSystemConfigLines (system_config : List (String × SysOption))
    (resolved : List (String × Bool)) (output_mode : String) (quiet_redirect : String) :
    List String :=
  (resolved.filter (fun p => p.2 && (pyGet system_config p.1).isSome)).flatMap
    (fun p => specSysConfigBlock system_config output_mode quiet_redirect p.1)

/-
Lemmas about the Python-dict model.
-/

theorem pyGet_dictSet_self (m : List (String × Bool)) (k : String) (v : Bool) :
    pyGet (dictSet m k v) k = some v := by
  induction m with
  | nil => simp [dictSet, pyGet, List.find?]
  | cons p rest ih =>
      cases hab : (p.1 == k) with
      | true => simp [dictSet, hab, pyGet, List.find?]
      | false => simpa [dictSet, hab, pyGet, List.find?] using ih

theorem pyGet_dictSet_ne (m : List (String × Bool)) (k : String) (v : Bool) (k2 : String)
    (h : k2 ≠ k) :
    pyGet (dictSet m k v) k2 = pyGet m k2 := by
  have hk2 : (k == k2) = false := by simp [Ne.symm h]
  induction m with
  | nil => simp [dictSet, pyGet, List.find?, hk2]
  | cons p rest ih =>
      cases hab : (p.1 == k) with
      | true =>
          have hp : p.1 = k := by simpa using hab
          simp [dictSet, hab, pyGet, List.find?, hk2, hp]
      | false =>
          cases hab2 : (p.1 == k2) with
          | true => simp [dictSet, hab, pyGet, List.find?, hab2]
          | false => simpa [dictSet, hab, pyGet, List.find?, hab2] using ih

theorem dictSet_idem (m : List (String × Bool)) (k : String) (v : Bool) :
    dictSet (dictSet m k v) k v = dictSet m k v := by
  induction m with
  | nil => simp [dictSet]
  | cons p rest ih =>
      cases hab : (p.1 == k) with
      | true => simp [dictSet, hab]
      | false => simp [dictSet, hab, ih]

theorem codecTriggered_set_rpmfusion (s : Selection) :
    codecTriggered
        { s with system_config := dictSet s.system_config "enable_rpmfusion" true }
      = codecTriggered s := by
  unfold codecTriggered pyGetD
  rw [pyGet_dictSet_ne _ _ _ _ (by decide), pyGet_dictSet_ne _ _ _ _ (by decide),
    pyGet_dictSet_ne _ _ _ _ (by decide)]

theorem check_dependencies_idem (s : Selection) :
    check_dependencies (check_dependencies s) = check_dependencies s := by
  cases h : codecTriggered s with
  | false => simp [check_dependencies, h]
  | true =>
      have e : check_dependencies s =
          { s with system_config := dictSet s.system_config "enable_rpmfusion" true } := by
        simp [check_dependencies, h]
      rw [e]
      have h2 := codecTriggered_set_rpmfusion s
      rw [h] at h2
      simp [check_dependencies, h2, dictSet_idem]

theorem occursIn_of_isPrefixOf (needle hay : List Char)
    (h : needle.isPrefixOf hay = true) : occursIn needle hay = true := by
  cases hay with
  | nil =>
      cases needle with
      | nil => rfl
      | cons c t => simp [List.isPrefixOf] at h
  | cons c rest => simp [occursIn, h]

theorem strContains_of_startsWith (s sub : String)
    (h : strStartsWith s sub = true) : strContains s sub = true :=
  occursIn_of_isPrefixOf sub.data s.data h

theorem flatMap_sysOptionBlock_eq_spec (sc : List (String × SysOption))
    (output_mode quiet_redirect : String) (l : List (String × Bool)) :
    l.flatMap (fun p => sysOptionBlock sc output_mode quiet_redirect p.1 p.2)
      = specSystemConfigLines sc l output_mode quiet_redirect := by
  induction l with
  | nil => rfl
  | cons p rest ih =>
      cases hen : p.2 with
      | false =>
          simp only [List.flatMap_cons, specSystemConfigLines, List.filter_cons, hen,
            Bool.false_and, sysOptionBlock, if_neg (by simp : ¬(false = true))]
          simpa [specSystemConfigLines] using ih
      | true =>
          cases hget : pyGet sc p.1 with
          | none =>
              simp only [List.flatMap_cons, specSystemConfigLines, List.filter_cons, hen,
                hget, Option.isSome_none, Bool.true_and, sysOptionBlock, if_pos rfl]
              simpa [specSystemConfigLines, hget] using ih
          | some entry =>
              simp only [List.flatMap_cons, specSystemConfigLines, List.filter_cons, hen,
                hget, Option.isSome_some, Bool.true_and, List.flatMap_cons,
                sysOptionBlock, specSysConfigBlock, if_pos rfl]
              simpa [specSystemConfigLines, specSysConfigBlock, hget] using ih

/-- C1: the claim asserts catalog-order iteration; in fact build_system_config
iterates the selection's system_config sub-map, so with catalog key order
[alpha, beta] and selection order [beta, alpha] the beta block is emitted
first, not the catalog's alpha-first order. -/
theorem C1_counterexample :
    build_system_config
        { system_config := some
            [("alpha", ⟨"Alpha", "Alpha option", Cmds.str "cmd-alpha"⟩),
             ("beta", ⟨"Beta", "Beta option", Cmds.str "cmd-beta"⟩)],
          essential_apps := none, addl := [] }
        { system_config := [("beta", true), ("alpha", true)],
          essential_apps := [], addl := [] }
        "Normal"
      = Except.ok "# Beta option\ncmd-beta\n\n# Alpha option\ncmd-alpha\n"
    ∧ "# Beta option\ncmd-beta\n\n# Alpha option\ncmd-alpha\n"
      ≠ "# Alpha option\ncmd-alpha\n\n# Beta option\ncmd-beta\n" :=
  ⟨rfl, by decide⟩

/-- C1 (amended): the System-Config Emitter iterates the resolved selection's
system_config entries in the selection's own order; for each key enabled there
and present in the catalog it emits the description comment followed by the
option's commands in declared order and a blank line, so enabled options
appear in the resolved selection's key order. -/
theorem C1_amended_selection_order (c : Catalog) (sc : List (String × SysOption))
    (s : Selection) (output_mode : String) (h : c.system_config = some sc) :
    build_system_config c s output_mode
      = Except.ok (String.intercalate "\n"
          (specSystemConfigLines sc (check_dependencies s).system_config output_mode
            (if output_mode == "Quiet" then " > /dev/null 2>&1" else ""))) := by
  unfold build_system_config
  rw [h]
  simp only [flatMap_sysOptionBlock_eq_spec]

/-- C1 witness: the amended theorem evaluated on the counterexample input. -/
theorem C1_witness :
    build_system_config
        { system_config := some
            [("alpha", ⟨"Alpha", "Alpha option", Cmds.str "cmd-alpha"⟩),
             ("beta", ⟨"Beta", "Beta option", Cmds.str "cmd-beta"⟩)],
          essential_apps := none, addl := [] }
        { system_config := [("beta", true), ("alpha", true)],
          essential_apps := [], addl := [] }
        "Normal"
      = Except.ok (String.intercalate "\n"
          (specSystemConfigLines
            [("alpha", ⟨"Alpha", "Alpha option", Cmds.str "cmd-alpha"⟩),
             ("beta", ⟨"Beta", "Beta option", Cmds.str "cmd-beta"⟩)]
            [("beta", true), ("alpha", true)] "Normal" "")) :=
  C1_amended_selection_order _ _ _ _ rfl

/-- C2: any of the three codec trigger options being true in the selection's
system_config sub-map forces enable_rpmfusion to true in the resolved
selection regardless of its prior value; with no trigger set, the resolver
returns the selection unchanged. -/
theorem C2_dependency_resolver (s : Selection) :
    (codecTriggered s = true →
        pyGetD (check_dependencies s).system_config "enable_rpmfusion" false = true)
      ∧ (codecTriggered s = false → check_dependencies s = s) := by
  constructor
  · intro h
    unfold check_dependencies
    rw [if_pos h]
    show pyGetD (dictSet s.system_config "enable_rpmfusion" true) "enable_rpmfusion" false
      = true
    unfold pyGetD
    rw [pyGet_dictSet_self]
    rfl
  · intro h
    unfold check_dependencies
    rw [if_neg (by simp [h])]

/-- C2 witness: a selection with install_amd_codecs set and enable_rpmfusion
previously false gets enable_rpmfusion forced to true. -/
theorem C2_witness :
    codecTriggered
        ⟨[("install_amd_codecs", true), ("enable_rpmfusion", false)], [], []⟩ = true
      ∧ pyGetD (check_dependencies
            ⟨[("install_amd_codecs", true), ("enable_rpmfusion", false)], [], []⟩).system_config
          "enable_rpmfusion" false = true :=
  ⟨by decide, (C2_dependency_resolver _).1 (by decide)⟩

/-- C3: should_quiet_redirect is false exactly when the command starts with one
of the five user-messaging prefixes or contains "EOF" anywhere (the code's
sixth pattern, "EOF" as a prefix, is subsumed by the containment check). -/
theorem C3_redirection_policy (cmd : String) :
    should_quiet_redirect cmd = false ↔ specNoRedirect cmd = true := by
  cases he : strContains cmd "EOF" with
  | true => simp [should_quiet_redirect, specNoRedirect, specNoRedirectList, he]
  | false =>
      have h6 : strStartsWith cmd "EOF" = false := by
        cases h6 : strStartsWith cmd "EOF" with
        | false => rfl
        | true => exact absurd (strContains_of_startsWith cmd "EOF" h6) (by simp [he])
      cases h1 : strStartsWith cmd "log_message" <;>
        cases h2 : strStartsWith cmd "echo" <;>
          cases h3 : strStartsWith cmd "printf" <;>
            cases h4 : strStartsWith cmd "read" <;>
              cases h5 : strStartsWith cmd "prompt_" <;>
                simp [should_quiet_redirect, specNoRedirect, specNoRedirectList,
                  he, h6, h1, h2, h3, h4, h5]

/-- C3 witness: the three examples named by the claim. -/
theorem C3_witness :
    should_quiet_redirect "dnf install -y foo" = true
      ∧ should_quiet_redirect "log_message \"x\"" = false
      ∧ should_quiet_redirect "cat << EOF" = false :=
  ⟨by decide, (C3_redirection_policy _).mpr (by decide),
    (C3_redirection_policy _).mpr (by decide)⟩

/-- C4: the claim asserts that a selection entry with no installation_type field
at all falls back to the default command; in fact build_app_install raises a
key-lookup error on "installation_type" for such an entry. -/
theorem C4_counterexample :
    build_app_install
        { system_config := none, essential_apps := some [],
          addl := [("internet_apps", [("browsers",
            ⟨"Browsers", [("firefox",
              { name := "Firefox", description := "browser",
                command := Cmds.str "dnf install -y firefox",
                installation_types :=
                  some [("flatpak", Cmds.str "flatpak install -y firefox")] })]⟩)])] }
        { system_config := [], essential_apps := [],
          addl := [("internet_apps", [("browsers", [("firefox",
            { selected := some true, installation_type := none })])])] }
        "Normal"
      = Except.error "installation_type" := rfl

/-- C4 (amended): for an app declaring installation_types, a selection entry
whose installation_type field is present and names an existing non-empty type
key selects that variant's command; a present field that is null, empty, or
names a missing key falls back to the default command; a selection entry with
no installation_type field at all makes the emitter raise a key-lookup error
instead of falling back.  The final conjunct runs the valid-variant case
through build_app_install. -/
theorem C4_amended_installation_type (app_data : AppData)
    (category_data : List (String × AppSel)) (app_id : String)
    (types : List (String × Cmds)) (e : AppSel)
    (hTypes : app_data.installation_types = some types)
    (hSel : pyGet category_data app_id = some e) :
    (e.installation_type = none →
        pickCommands app_data category_data app_id = Except.error "installation_type")
      ∧ (∀ s variant, e.installation_type = some (some s) → s ≠ "" →
          pyGet types s = some variant →
          pickCommands app_data category_data app_id = Except.ok variant)
      ∧ (e.installation_type = some none →
          pickCommands app_data category_data app_id = Except.ok app_data.command)
      ∧ (∀ s, e.installation_type = some (some s) → pyGet types s = none →
          pickCommands app_data category_data app_id = Except.ok app_data.command)
      ∧ (e.installation_type = some (some "") →
          pickCommands app_data category_data app_id = Except.ok app_data.command)
      ∧ build_app_install
          { system_config := none, essential_apps := some [],
            addl := [("internet_apps", [("browsers",
              ⟨"Browsers", [("firefox",
                { name := "Firefox", description := "browser",
                  command := Cmds.str "dnf install -y firefox",
                  installation_types :=
                    some [("flatpak", Cmds.str "flatpak install -y firefox")] })]⟩)])] }
          { system_config := [], essential_apps := [],
            addl := [("internet_apps", [("browsers", [("firefox",
              { selected := some true,
                installation_type := some (some "flatpak") })])])] }
          "Normal"
        = Except.ok ("# Install Browsers applications\n"
            ++ "log_message \"Installing Firefox...\"\n"
            ++ "flatpak install -y firefox\n"
            ++ "log_message \"Firefox installed successfully.\"\n") := by
  refine ⟨?_, ?_, ?_, ?_, ?_, rfl⟩
  · intro h0
    simp only [pickCommands, hTypes, hSel, h0]
  · intro s variant h0 hs hv
    simp only [pickCommands, hTypes, hSel, h0]
    have hs2 : (s != "") = true := by simp [hs]
    rw [if_pos hs2, hv]
  · intro h0
    simp only [pickCommands, hTypes, hSel, h0]
  · intro s h0 hv
    simp only [pickCommands, hTypes, hSel, h0]
    cases hs : (s != "") with
    | false => rw [if_neg (by simp [hs])]
    | true => simp [hv]
  · intro h0
    simp only [pickCommands, hTypes, hSel, h0]
    rfl

/-- C4 witness: the valid flatpak variant is chosen by pickCommands. -/
theorem C4_witness :
    pickCommands
        { name := "Firefox", description := "browser",
          command := Cmds.str "dnf install -y firefox",
          installation_types := some [("flatpak", Cmds.str "flatpak install -y firefox")] }
        [("firefox", { selected := some true, installation_type := some (some "flatpak") })]
        "firefox"
      = Except.ok (Cmds.str "flatpak install -y firefox") :=
  (C4_amended_installation_type
      { name := "Firefox", description := "browser",
        command := Cmds.str "dnf install -y firefox",
        installation_types := some [("flatpak", Cmds.str "flatpak install -y firefox")] }
      [("firefox", { selected := some true, installation_type := some (some "flatpak") })]
      "firefox"
      [("flatpak", Cmds.str "flatpak install -y firefox")]
      { selected := some true, installation_type := some (some "flatpak") }
      rfl rfl).2.1 "flatpak" (Cmds.str "flatpak install -y firefox") rfl (by decide) rfl

/-- C5: the claim asserts no raise for a non-empty catalog missing a category
such as system_config; in fact generate_options raises a key-lookup error on
"system_config" for a non-empty catalog without that category. -/
theorem C5_counterexample :
    generate_options
        { system_config := none, essential_apps := none,
          addl := [("internet_apps", [])] }
      = Except.error "system_config" := rfl

/-- C5 (amended): the Options Enumerator returns the empty structure without
raising on the empty catalog, and never raises when only additional app
categories are missing (they get empty defaults); but a non-empty catalog
missing system_config raises a key-lookup error on "system_config", and a
catalog with system_config present but essential_apps missing raises a
key-lookup error on "essential_apps", rather than using an empty default. -/
theorem C5_amended_enumerator :
    generate_options { system_config := none, essential_apps := none, addl := [] }
        = Except.ok { system_config := [], essential_apps := [], addl := [] }
      ∧ (∀ (c : Catalog), c.isEmpty = false → c.system_config = none →
          generate_options c = Except.error "system_config")
      ∧ (∀ (c : Catalog) (sc : List (String × SysOption)),
          c.system_config = some sc → c.essential_apps = none →
          generate_options c = Except.error "essential_apps")
      ∧ (∀ (c : Catalog) (sc : List (String × SysOption)) (ess : List EssApp),
          c.system_config = some sc → c.essential_apps = some ess →
          ∃ v, generate_options c = Except.ok v)
      ∧ (∀ (sc : List (String × SysOption)) (ess : List EssApp),
          generate_options { system_config := some sc, essential_apps := some ess, addl := [] }
            = Except.ok
                { system_config :=
                    (sc.map (fun p => p.1)).filter (fun key => key != "description"),
                  essential_apps := ess.map (fun app => app.name),
                  addl := additional_categories.map
                    (fun category => (category, { name := none, apps := [] })) }) := by
  refine ⟨rfl, ?_, ?_, ?_, ?_⟩
  · intro c hE h1
    simp only [generate_options, hE, h1]
    rfl
  · intro c sc h1 h2
    have hE : c.isEmpty = false := by simp [Catalog.isEmpty, h1]
    simp only [generate_options, hE, h1, h2]
    rfl
  · intro c sc ess h1 h2
    cases c with
    | mk csc cess caddl =>
        simp only at h1 h2
        rw [h1, h2]
        exact ⟨_, rfl⟩
  · intro sc ess
    rfl

/-- C5 witness: both required categories present with an additional category
absent enumerates without raising, while a catalog missing only essential_apps
and a non-empty catalog missing system_config both raise. -/
theorem C5_witness :
    (∃ v, generate_options
        { system_config := some [], essential_apps := some [],
          addl := [("internet_apps", [])] }
      = Except.ok v)
      ∧ generate_options
          { system_config := some [], essential_apps := none, addl := [] }
        = Except.error "essential_apps"
      ∧ generate_options
          { system_config := none, essential_apps := none, addl := [("gaming_apps", [])] }
        = Except.error "system_config" :=
  ⟨C5_amended_enumerator.2.2.2.1 _ [] [] rfl rfl,
   C5_amended_enumerator.2.2.1 _ [] rfl rfl,
   C5_amended_enumerator.2.1 _ (by decide) rfl⟩

/-- C6: every command of the set_hostname option containing the substring
"hostnamectl set-hostname" gets the literal hostname placeholder appended;
under Normal mode no redirection is added, and the claim's end-to-end scenario
emits exactly "hostnamectl set-hostname \x7bhostname\x7d". -/
theorem C6_hostname_placeholder (cmd : String)
    (h : strContains cmd "hostnamectl set-hostname" = true) :
    hostnameSubst "set_hostname" cmd = cmd ++ " " ++ "\x7bhostname\x7d"
      ∧ (∀ quiet_redirect, sysCmdLine "set_hostname" "Normal" quiet_redirect cmd
          = hostnameSubst "set_hostname" cmd)
      ∧ build_system_config
          { system_config := some [("set_hostname",
              ⟨"Set Hostname", "Set system hostname",
                Cmds.list ["hostnamectl set-hostname"]⟩)],
            essential_apps := none, addl := [] }
          { system_config := [("set_hostname", true)], essential_apps := [], addl := [] }
          "Normal"
        = Except.ok "# Set system hostname\nhostnamectl set-hostname \x7bhostname\x7d\n" := by
  refine ⟨?_, fun quiet_redirect => rfl, rfl⟩
  unfold hostnameSubst
  rw [if_pos (by simp [h])]
  rfl

/-- C6 witness: the placeholder appended to the plain hostnamectl command. -/
theorem C6_witness :
    strContains "hostnamectl set-hostname" "hostnamectl set-hostname" = true
      ∧ hostnameSubst "set_hostname" "hostnamectl set-hostname"
        = "hostnamectl set-hostname" ++ " " ++ "\x7bhostname\x7d" :=
  ⟨by decide, (C6_hostname_placeholder "hostnamectl set-hostname" (by decide)).1⟩

/-- C7: with at least one essential app selected, build_app_install emits the
comment, the installing status line, one combined dnf command listing every
selected essential app name space-separated (catalog order, matched by name),
the success status line and a blank line, with the combined command redirected
as a whole in Quiet mode; the second conjunct is the claim's git/vim Quiet
scenario. -/
theorem C7_essential_apps_block :
    (∀ (c : Catalog) (ess : List EssApp) (options : Selection) (output_mode : String)
        (rest : List String),
        c.essential_apps = some ess →
        ess.filter (fun app => pyGetD options.essential_apps app.name false) ≠ [] →
        addlBlocks c options (if output_mode == "Quiet" then " > /dev/null 2>&1" else "")
            additional_categories = Except.ok rest →
        build_app_install c options output_mode
          = Except.ok (String.intercalate "\n"
              (["# Install essential applications",
                "log_message \"Installing essential applications...\"",
                "dnf install -y "
                  ++ String.intercalate " "
                    ((ess.filter (fun app => pyGetD options.essential_apps app.name false)).map
                      (fun app => app.name))
                  ++ (if output_mode == "Quiet" then " > /dev/null 2>&1" else ""),
                "log_message \"Essential applications installed successfully.\"",
                ""] ++ rest)))
      ∧ build_app_install
          { system_config := none,
            essential_apps := some [⟨"git", "n/a"⟩, ⟨"vim", "n/a"⟩], addl := [] }
          { system_config := [], essential_apps := [("git", true), ("vim", false)],
            addl := [] }
          "Quiet"
        = Except.ok ("# Install essential applications\n"
            ++ "log_message \"Installing essential applications...\"\n"
            ++ "dnf install -y git > /dev/null 2>&1\n"
            ++ "log_message \"Essential applications installed successfully.\"\n") := by
  refine ⟨?_, rfl⟩
  intro c ess options output_mode rest hc hne hrest
  have hne2 : (ess.filter
      (fun app => pyGetD options.essential_apps app.name false)).isEmpty = false := by
    cases hfe : ess.filter (fun app => pyGetD options.essential_apps app.name false) with
    | nil => exact absurd hfe hne
    | cons a t => rfl
  simp only [build_app_install, hc, hne2, hrest, Bind.bind, Except.bind]
  rfl

/-- C7 witness: the general statement applied to a one-app catalog. -/
theorem C7_witness :
    build_app_install
        { system_config := none, essential_apps := some [⟨"git", "n/a"⟩], addl := [] }
        { system_config := [], essential_apps := [("git", true)], addl := [] }
        "Normal"
      = Except.ok ("# Install essential applications\n"
          ++ "log_message \"Installing essential applications...\"\n"
          ++ "dnf install -y git\n"
          ++ "log_message \"Essential applications installed successfully.\"\n") :=
  C7_essential_apps_block.1
    { system_config := none, essential_apps := some [⟨"git", "n/a"⟩], addl := [] }
    [⟨"git", "n/a"⟩]
    { system_config := [], essential_apps := [("git", true)], addl := [] }
    "Normal" [] rfl (by decide) rfl

/-- C8: an option key enabled in the selection but absent from the catalog's
system_config contributes no lines, and build_system_config never raises as
long as the catalog has a system_config category, whatever the selection. -/
theorem C8_absent_key_skipped (c : Catalog) (sc : List (String × SysOption))
    (s : Selection) (output_mode : String) (hc : c.system_config = some sc) :
    (∀ option enabled quiet_redirect, pyGet sc option = none →
        sysOptionBlock sc output_mode quiet_redirect option enabled = [])
      ∧ (∃ out, build_system_config c s output_mode = Except.ok out) := by
  constructor
  · intro option enabled quiet_redirect h
    cases enabled with
    | false => rfl
    | true => simp [sysOptionBlock, h]
  · unfold build_system_config
    rw [hc]
    exact ⟨_, rfl⟩

/-- C8 witness: a selection enabling the absent key "ghost" emits nothing for
it and the build still succeeds. -/
theorem C8_witness :
    pyGet [("alpha", (⟨"Alpha", "Alpha option", Cmds.str "cmd-alpha"⟩ : SysOption))]
        "ghost" = none
      ∧ sysOptionBlock [("alpha", ⟨"Alpha", "Alpha option", Cmds.str "cmd-alpha"⟩)]
          "Normal" "" "ghost" true = []
      ∧ ∃ out, build_system_config
          { system_config := some
              [("alpha", ⟨"Alpha", "Alpha option", Cmds.str "cmd-alpha"⟩)],
            essential_apps := none, addl := [] }
          { system_config := [("ghost", true)], essential_apps := [], addl := [] }
          "Normal" = Except.ok out :=
  ⟨rfl,
   (C8_absent_key_skipped
      { system_config := some
          [("alpha", ⟨"Alpha", "Alpha option", Cmds.str "cmd-alpha"⟩)],
        essential_apps := none, addl := [] }
      [("alpha", ⟨"Alpha", "Alpha option", Cmds.str "cmd-alpha"⟩)]
      ⟨[("ghost", true)], [], []⟩ "Normal" rfl).1 "ghost" true "" rfl,
   (C8_absent_key_skipped
      { system_config := some
          [("alpha", ⟨"Alpha", "Alpha option", Cmds.str "cmd-alpha"⟩)],
        essential_apps := none, addl := [] }
      [("alpha", ⟨"Alpha", "Alpha option", Cmds.str "cmd-alpha"⟩)]
      ⟨[("ghost", true)], [], []⟩ "Normal" rfl).2⟩

/-- C9: a second build_system_config call whose selection argument carries the
first call's in-place dependency resolution produces the same output as the
first call, because check_dependencies is idempotent. -/
theorem C9_idempotence (c : Catalog) (s : Selection) (output_mode : String) :
    build_system_config c (check_dependencies s) output_mode
      = build_system_config c s output_mode := by
  unfold build_system_config
  rw [check_dependencies_idem]

/-- C10: on the empty catalog both emitters raise key-lookup errors (on
"system_config" and on "essential_apps" respectively) for every selection and
output mode, instead of returning empty output text. -/
theorem C10_empty_catalog_raises (s : Selection) (output_mode : String) :
    build_system_config { system_config := none, essential_apps := none, addl := [] }
        s output_mode = Except.error "system_config"
      ∧ build_app_install { system_config := none, essential_apps := none, addl := [] }
          s output_mode = Except.error "essential_apps" :=
  ⟨rfl, rfl⟩
